import Mathlib

/-!
Shallow embedding of `fpsensor/api.py` (fingerprint sensor API definitions):
the enumerated code tables (`FpError`, `FpBaudrate`, `FpSecurity`,
`FpPacketSize`), their integer conversion methods, the
`FpSystemParameters` data structure with its `serialize` / `deserialize`
methods, and the byte helpers `to_bytes` / `from_bytes`.

Modelling conventions:
  - Python bytearrays are `List Nat` with entries below 256.
  - `int.to_bytes(length=size, byteorder=big, signed=False)` raises
    `OverflowError` when the value does not fit; this is modelled as
    `Option`, with `none` for the raising case.
  - Methods that `raise ValueError` are modelled with `Except FpConvError`;
    `FpConvError.mathDomainError` stands for the `ValueError` that Python
    `math.log2` raises on a non-positive argument, and
    `FpConvError.unsupportedValue` for the explicit
    `raise ValueError(...)` branches of `from_int`.
  - `int(math.log2(n))` for `n ≥ 1` is modelled as `pyLog2 n`
    (floor of the base-2 logarithm); on every value these theorems touch
    the double-precision computation is exact, so the two agree.
-/

/-- Error outcomes of the integer conversion classmethods. -/
inductive FpConvError
  | unsupportedValue
  | mathDomainError
  deriving DecidableEq

deriving instance DecidableEq for Except

/-- Names of the `FpError` enum (fingerprint error IDs). In the Python
source each name is assigned a numeric code; duplicate codes make the
later name an alias of the earlier member. Here the names are kept as
distinct constructors and the assignment is the `code` function below. -/
inductive FpError
  | SUCCESS
  | HANDSHAKE_SUCCESS
  | ERROR_INVALID_REGISTER
  | ERROR_INVALID_CONFIGURATION
  | ERROR_NOTEPAD_INVALID_PAGE
  | ERROR_PACKET_TRANSMISSION
  | ERROR_PACKET_RECEPTION
  | ERROR_PACKET_FAULTY
  | ERROR_FINGER_NOT_IN_SENSOR
  | ERROR_FINGER_ENROLL_FAILED
  | ERROR_FINGER_MISMATCH
  | ERROR_FINGER_NOT_FOUND
  | ERROR_IMAGE_MESSY
  | ERROR_IMAGE_INVALID
  | ERROR_IMAGE_FEW_FEATURE_POINTS
  | ERROR_IMAGE_DOWNLOAD
  | ERROR_CHARACTERISTICS_MISMATCH
  | ERROR_TEMPLATE_INVALID_INDEX
  | ERROR_TEMPLATE_LOAD
  | ERROR_TEMPLATE_UPLOAD
  | ERROR_TEMPLATE_DOWNLOAD
  | ERROR_TEMPLATE_DELETE
  | ERROR_TEMPLATE_EMPTY
  | ERROR_FLASH
  | ERROR_DATABASE_FULL
  | ERROR_TIMEOUT
  | ERROR_UNDEFINED
  | ERROR_COMMUNICATION_PORT
  | ERROR_ADDRESS
  | ERROR_PASSWORD
  | ERROR_PASSWORD_VERIFY
  deriving DecidableEq, Fintype

/-- Numeric code assigned to each `FpError` name, exactly as written in
the Python enum body. -/
def FpError.code : FpError → Nat
  | .SUCCESS                          => 0x00
  | .HANDSHAKE_SUCCESS                => 0x55
  | .ERROR_INVALID_REGISTER           => 0x1A
  | .ERROR_INVALID_CONFIGURATION      => 0x1B
  | .ERROR_NOTEPAD_INVALID_PAGE       => 0x1C
  | .ERROR_PACKET_TRANSMISSION        => 0x01
  | .ERROR_PACKET_RECEPTION           => 0x0E
  | .ERROR_PACKET_FAULTY              => 0xFE
  | .ERROR_FINGER_NOT_IN_SENSOR       => 0x02
  | .ERROR_FINGER_ENROLL_FAILED       => 0x03
  | .ERROR_FINGER_MISMATCH            => 0x08
  | .ERROR_FINGER_NOT_FOUND           => 0x09
  | .ERROR_IMAGE_MESSY                => 0x06
  | .ERROR_IMAGE_INVALID              => 0x15
  | .ERROR_IMAGE_FEW_FEATURE_POINTS   => 0x07
  | .ERROR_IMAGE_DOWNLOAD             => 0x0F
  | .ERROR_CHARACTERISTICS_MISMATCH   => 0x0A
  | .ERROR_TEMPLATE_INVALID_INDEX     => 0x0B
  | .ERROR_TEMPLATE_LOAD              => 0x0C
  | .ERROR_TEMPLATE_UPLOAD            => 0xFD
  | .ERROR_TEMPLATE_DOWNLOAD          => 0x0D
  | .ERROR_TEMPLATE_DELETE            => 0x10
  | .ERROR_TEMPLATE_EMPTY             => 0x11
  | .ERROR_FLASH                      => 0x18
  | .ERROR_DATABASE_FULL              => 0xFE
  | .ERROR_TIMEOUT                    => 0xFF
  | .ERROR_UNDEFINED                  => 0x19
  | .ERROR_COMMUNICATION_PORT         => 0x1D
  | .ERROR_ADDRESS                    => 0x20
  | .ERROR_PASSWORD                   => 0x13
  | .ERROR_PASSWORD_VERIFY            => 0x21

/-- Success codes of `FpError`: `SUCCESS` and `HANDSHAKE_SUCCESS`. -/
def FpError.isSuccess : FpError → Bool
  | .SUCCESS => true
  | .HANDSHAKE_SUCCESS => true
  | _ => false

/-- Fingerprint compatible baudrate codes (`FpBaudrate`). -/
inductive FpBaudrate
  | BAUDRATE_9600
  | BAUDRATE_19200
  | BAUDRATE_28800
  | BAUDRATE_34800
  | BAUDRATE_48000
  | BAUDRATE_57600
  | BAUDRATE_67200
  | BAUDRATE_76800
  | BAUDRATE_86400
  | BAUDRATE_96000
  | BAUDRATE_105600
  | BAUDRATE_115200
  deriving DecidableEq, Fintype

/-- Numeric value of each `FpBaudrate` member (0x01 .. 0x0C). -/
def FpBaudrate.code : FpBaudrate → Nat
  | .BAUDRATE_9600   => 0x01
  | .BAUDRATE_19200  => 0x02
  | .BAUDRATE_28800  => 0x03
  | .BAUDRATE_34800  => 0x04
  | .BAUDRATE_48000  => 0x05
  | .BAUDRATE_57600  => 0x06
  | .BAUDRATE_67200  => 0x07
  | .BAUDRATE_76800  => 0x08
  | .BAUDRATE_86400  => 0x09
  | .BAUDRATE_96000  => 0x0A
  | .BAUDRATE_105600 => 0x0B
  | .BAUDRATE_115200 => 0x0C

/-- Inverse of `FpBaudrate.code`: `FpBaudrate(n)` in Python, as an
option. `IntEnumMod.has_value(n)` is `(fromCode? n).isSome`. -/
def FpBaudrate.fromCode? : Nat → Option FpBaudrate
  | 0x01 => some .BAUDRATE_9600
  | 0x02 => some .BAUDRATE_19200
  | 0x03 => some .BAUDRATE_28800
  | 0x04 => some .BAUDRATE_34800
  | 0x05 => some .BAUDRATE_48000
  | 0x06 => some .BAUDRATE_57600
  | 0x07 => some .BAUDRATE_67200
  | 0x08 => some .BAUDRATE_76800
  | 0x09 => some .BAUDRATE_86400
  | 0x0A => some .BAUDRATE_96000
  | 0x0B => some .BAUDRATE_105600
  | 0x0C => some .BAUDRATE_115200
  | _    => none

/-- Membership test `FpBaudrate.has_value` of the Python source. -/
def FpBaudrate.has_value (value : Nat) : Bool :=
  (FpBaudrate.fromCode? value).isSome

/-- Method `FpBaudrate.to_int`: the member value times 9600. -/
def FpBaudrate.to_int (b : FpBaudrate) : Nat :=
  b.code * 9600

/-- Classmethod `FpBaudrate.from_int`: accept an exact member value,
otherwise floor-divide by 9600 and accept a member value, otherwise
raise `ValueError` (modelled as `FpConvError.unsupportedValue`). -/
def FpBaudrate.from_int (value : Nat) : Except FpConvError FpBaudrate :=
  match FpBaudrate.fromCode? value with
  | some b => .ok b
  | none =>
    match FpBaudrate.fromCode? (value / 9600) with
    | some b => .ok b
    | none => .error .unsupportedValue

/-- Fingerprint security levels (`FpSecurity`). -/
inductive FpSecurity
  | SECURITY_LVL1
  | SECURITY_LVL2
  | SECURITY_LVL3
  | SECURITY_LVL4
  | SECURITY_LVL5
  deriving DecidableEq, Fintype

/-- Numeric value of each `FpSecurity` member (0x01 .. 0x05). -/
def FpSecurity.code : FpSecurity → Nat
  | .SECURITY_LVL1 => 0x01
  | .SECURITY_LVL2 => 0x02
  | .SECURITY_LVL3 => 0x03
  | .SECURITY_LVL4 => 0x04
  | .SECURITY_LVL5 => 0x05

/-- Inverse of `FpSecurity.code`: `FpSecurity(n)` in Python, as an
option. -/
def FpSecurity.fromCode? : Nat → Option FpSecurity
  | 0x01 => some .SECURITY_LVL1
  | 0x02 => some .SECURITY_LVL2
  | 0x03 => some .SECURITY_LVL3
  | 0x04 => some .SECURITY_LVL4
  | 0x05 => some .SECURITY_LVL5
  | _    => none

/-- Membership test `FpSecurity.has_value` of the Python source. -/
def FpSecurity.has_value (value : Nat) : Bool :=
  (FpSecurity.fromCode? value).isSome

/-- Fingerprint packet size codes (`FpPacketSize`). -/
inductive FpPacketSize
  | PACKET_SIZE_32
  | PACKET_SIZE_64
  | PACKET_SIZE_128
  | PACKET_SIZE_256
  deriving DecidableEq, Fintype

/-- Numeric value of each `FpPacketSize` member (0x00 .. 0x03). -/
def FpPacketSize.code : FpPacketSize → Nat
  | .PACKET_SIZE_32  => 0x00
  | .PACKET_SIZE_64  => 0x01
  | .PACKET_SIZE_128 => 0x02
  | .PACKET_SIZE_256 => 0x03

/-- Inverse of `FpPacketSize.code`: `FpPacketSize(n)` in Python, as an
option. -/
def FpPacketSize.fromCode? : Nat → Option FpPacketSize
  | 0x00 => some .PACKET_SIZE_32
  | 0x01 => some .PACKET_SIZE_64
  | 0x02 => some .PACKET_SIZE_128
  | 0x03 => some .PACKET_SIZE_256
  | _    => none

/-- Membership test `FpPacketSize.has_value` of the Python source. -/
def FpPacketSize.has_value (value : Nat) : Bool :=
  (FpPacketSize.fromCode? value).isSome

/-- Method `FpPacketSize.to_int`: 32 times 2 to the member value. -/
def FpPacketSize.to_int (p : FpPacketSize) : Nat :=
  32 * 2 ^ p.code

/-- Fuel-driven halving loop computing the floor of the base-2
logarithm; with fuel at least `n` it is exact for `n ≥ 1`. -/
def log2Aux : Nat → Nat → Nat
  | 0, _ => 0
  | f + 1, n => if 2 ≤ n then log2Aux f (n / 2) + 1 else 0

/-- Floor of the base-2 logarithm of `n`, the model of Python
`int(math.log2(n))` for `n ≥ 1` (exact in double precision on the
values these theorems touch). -/
def pyLog2 (n : Nat) : Nat := log2Aux n n

/-- Classmethod `FpPacketSize.from_int`: accept an exact member value,
otherwise compute `int(log2(value >> 5))` and accept a member value,
otherwise raise. When `value >> 5 = 0`, Python `math.log2` itself
raises a `ValueError` (math domain error) before any membership test. -/
def FpPacketSize.from_int (value : Nat) : Except FpConvError FpPacketSize :=
  match FpPacketSize.fromCode? value with
  | some p => .ok p
  | none =>
    if value >>> 5 = 0 then .error .mathDomainError
    else
      match FpPacketSize.fromCode? (pyLog2 (value >>> 5)) with
      | some p => .ok p
      | none => .error .unsupportedValue

/-- Utility `to_bytes(value, size)`: the big-endian byte expansion of
`value` on `size` bytes. Python `int.to_bytes` raises `OverflowError`
when `value` does not fit in `size` bytes; that case is `none`. -/
def natToBE (value : Nat) : Nat → List Nat
  | 0 => []
  | s + 1 => natToBE (value / 256) s ++ [value % 256]

/-- Overflow-checked conversion, the direct model of the module-level
`to_bytes` utility. -/
def to_bytes (value : Nat) (size : Nat) : Option (List Nat) :=
  if value < 256 ^ size then some (natToBE value size) else none

/-- Utility `from_bytes(data)`: big-endian unsigned interpretation. -/
def from_bytes (data : List Nat) : Nat :=
  data.foldl (fun a b => 256 * a + b) 0

/-- Python slice `data[a:b]` on a list (for `0 ≤ a ≤ b`). -/
def pySlice (data : List Nat) (a b : Nat) : List Nat :=
  (data.drop a).take (b - a)

/-- Dataclass `FpSystemParameters`, fields in declaration order. -/
structure FpSystemParameters where
  status   : Nat
  id       : Nat
  address  : Nat
  capacity : Nat
  packet   : FpPacketSize
  security : FpSecurity
  baudrate : FpBaudrate
  deriving DecidableEq

/-- Constant `FpSystemParameters.LENGTH` of the source. -/
def FpSystemParameters.LENGTH : Nat := 16

/-- Method `FpSystemParameters.serialize`: concatenation of the
`to_bytes` expansions of the seven fields, each with `size=2`
(including the address, exactly as the source writes it), in the
source order status, id, capacity, security, address, packet,
baudrate. The result is `none` when any field overflows 2 bytes. -/
def FpSystemParameters.serialize (p : FpSystemParameters) : Option (List Nat) := do
  let bStat ← to_bytes p.status 2
  let bId   ← to_bytes p.id 2
  let bCap  ← to_bytes p.capacity 2
  let bSec  ← to_bytes p.security.code 2
  let bAddr ← to_bytes p.address 2
  let bPack ← to_bytes p.packet.code 2
  let bBaud ← to_bytes p.baudrate.code 2
  pure (bStat ++ bId ++ bCap ++ bSec ++ bAddr ++ bPack ++ bBaud)

/-- Staticmethod `FpSystemParameters.deserialize`: `none` when fewer
than 16 bytes are supplied or when the decoded security, packet-size
or baudrate value is not a member; otherwise builds the record, masking
the status to its low nibble. Slice offsets follow the source:
status 0:2, id 2:4, capacity 4:6, security 6:8, address 8:12,
packet 12:14, baudrate 14:16. -/
def FpSystemParameters.deserialize (data : List Nat) : Option FpSystemParameters :=
  if data.length < FpSystemParameters.LENGTH then none
  else
    let stat := from_bytes (pySlice data 0 2)
    let idv  := from_bytes (pySlice data 2 4)
    let cap  := from_bytes (pySlice data 4 6)
    let sec  := from_bytes (pySlice data 6 8)
    let addr := from_bytes (pySlice data 8 12)
    let pack := from_bytes (pySlice data 12 14)
    let baud := from_bytes (pySlice data 14 16)
    match FpSecurity.fromCode? sec with
    | none => none
    | some s =>
      match FpPacketSize.fromCode? pack with
      | none => none
      | some pk =>
        match FpBaudrate.fromCode? baud with
        | none => none
        | some bd =>
          some { status := 0x0F &&& stat, id := idv, capacity := cap,
                 security := s, address := addr, packet := pk, baudrate := bd }

/-- Default broadcast address constant `ADDRESS` of the source. -/
def ADDRESS : Nat := 0xFFFFFFFF

/-! Helper lemmas shared by the claim theorems. -/

/-- Length of the big-endian expansion equals the requested size. -/
lemma length_natToBE (v s : Nat) : (natToBE v s).length = s := by
  induction s generalizing v with
  | zero => rfl
  | succ n ih => simp [natToBE, ih]

/-- A successful `to_bytes` call returns exactly `size` bytes. -/
lemma to_bytes_length {v s : Nat} {l : List Nat} (h : to_bytes v s = some l) :
    l.length = s := by
  unfold to_bytes at h
  split at h
  · cases h; exact length_natToBE v s
  · cases h

/-- The `to_bytes` call overflows when the value needs more bytes. -/
lemma to_bytes_none_of_ge {v s : Nat} (h : 256 ^ s ≤ v) : to_bytes v s = none := by
  unfold to_bytes
  rw [if_neg (by omega)]

/-- Buffers shorter than the 16-byte layout are rejected by
`deserialize`. -/
lemma deserialize_none_of_short (data : List Nat) (h : data.length < 16) :
    FpSystemParameters.deserialize data = none := by
  simp [FpSystemParameters.deserialize, FpSystemParameters.LENGTH, h]

/-! Claim theorems. -/

/-- C1 (code bug): the spec expects `deserialize(serialize(p)) == p`,
and the class docstring together with `LENGTH = 16` and the
`deserialize` offsets documents a 4-byte address field at offsets
8 to 11; but `serialize` writes the address with `size=2`, so the
output has only 14 bytes and `deserialize` rejects it. Evaluated at a
concrete parameter record with valid enumerated fields, the round trip
returns `none` instead of the record. -/
theorem C1_serialize_roundtrip_yields_none :
    (FpSystemParameters.serialize
        { status := 0, id := 0, address := 0, capacity := 0,
          packet := .PACKET_SIZE_32, security := .SECURITY_LVL1,
          baudrate := .BAUDRATE_9600 }).map FpSystemParameters.deserialize
      = some none := by rfl

/-- C2 (code bug): the spec and the class docstring describe a 16-byte
output, but `serialize` writes every field, including the documented
4-byte address, on 2 bytes: the concrete record below serializes to a
14-byte buffer. The field order status, id, capacity, security,
address, packet size, baudrate and the big-endian layout are visible in
the explicit byte list. -/
theorem C2_serialize_produces_14_bytes :
    FpSystemParameters.serialize
        { status := 0x0102, id := 0x0304, address := 0x0B0C, capacity := 0x0506,
          packet := .PACKET_SIZE_256, security := .SECURITY_LVL5,
          baudrate := .BAUDRATE_115200 }
      = some [0x01, 0x02, 0x03, 0x04, 0x05, 0x06, 0x00, 0x05,
              0x0B, 0x0C, 0x00, 0x03, 0x00, 0x0C] := by rfl

/-- C3 (counterexample): the claim says `FpBaudrate.from_int 100000`
raises the unsupported-baud-rate error, but the fallback
`100000 // 9600 = 10` is the member value of `BAUDRATE_96000`, so the
call does not fail. -/
theorem C3_from_int_100000_does_not_raise :
    FpBaudrate.from_int 100000 ≠ Except.error FpConvError.unsupportedValue := by
  decide

/-- C3 (amended): `FpBaudrate.from_int 100000` succeeds and returns
`BAUDRATE_96000`, the code of the 96000 baud rate, because the
fallback division `100000 // 9600` yields the member value 10. -/
theorem C3_from_int_100000_returns_baudrate_96000 :
    FpBaudrate.from_int 100000 = Except.ok FpBaudrate.BAUDRATE_96000 ∧
    FpBaudrate.to_int FpBaudrate.BAUDRATE_96000 = 96000 := by decide

/-- C4 (counterexample): the claim says `FpPacketSize.from_int 100`
raises the unsupported-packet-size error, but the fallback
`int(log2(100 >> 5)) = int(log2(3)) = 1` is the member value of
`PACKET_SIZE_64`, so the call does not fail. -/
theorem C4_from_int_100_does_not_raise :
    FpPacketSize.from_int 100 ≠ Except.error FpConvError.unsupportedValue := by
  decide

/-- C4 (amended): `FpPacketSize.from_int 100` succeeds and returns
`PACKET_SIZE_64`, the code of the 64-byte packet size, because the
fallback `int(log2(100 >> 5))` yields the member value 1. -/
theorem C4_from_int_100_returns_packet_size_64 :
    FpPacketSize.from_int 100 = Except.ok FpPacketSize.PACKET_SIZE_64 ∧
    FpPacketSize.to_int FpPacketSize.PACKET_SIZE_64 = 64 := by decide

/-- C5: `deserialize` returns `none` on buffers shorter than 16 bytes
(in particular a 10-byte buffer), returns `none` whenever the decoded
security, packet-size or baudrate value is not a recognized member, and
on success the status field of the result is the decoded status masked
to its low nibble. -/
theorem C5_deserialize_guards_and_status_mask :
    (∀ data : List Nat, data.length < 16 →
      FpSystemParameters.deserialize data = none) ∧
    (∀ data : List Nat, 16 ≤ data.length →
      (FpSecurity.fromCode? (from_bytes (pySlice data 6 8)) = none ∨
       FpPacketSize.fromCode? (from_bytes (pySlice data 12 14)) = none ∨
       FpBaudrate.fromCode? (from_bytes (pySlice data 14 16)) = none) →
      FpSystemParameters.deserialize data = none) ∧
    (∀ (data : List Nat) (p : FpSystemParameters),
      FpSystemParameters.deserialize data = some p →
      p.status = 0x0F &&& from_bytes (pySlice data 0 2)) := by
  refine ⟨deserialize_none_of_short, ?_, ?_⟩
  · intro data hlen hbad
    simp only [FpSystemParameters.deserialize, FpSystemParameters.LENGTH]
    rw [if_neg (by omega)]
    rcases hbad with h | h | h
    · simp [h]
    · cases hsec : FpSecurity.fromCode? (from_bytes (pySlice data 6 8)) <;> simp [h, hsec]
    · cases hsec : FpSecurity.fromCode? (from_bytes (pySlice data 6 8)) <;>
        cases hpack : FpPacketSize.fromCode? (from_bytes (pySlice data 12 14)) <;>
          simp [h, hsec, hpack]
  · intro data p h
    simp only [FpSystemParameters.deserialize, FpSystemParameters.LENGTH] at h
    split at h
    · simp at h
    · split at h
      · simp at h
      · split at h
        · simp at h
        · split at h
          · simp at h
          · cases h.symm
            rfl

/-- Witness for C5: a concrete 10-byte buffer and a concrete 16-byte
buffer with an invalid security value are both rejected, and a concrete
successfully parsed buffer has its status masked to the low nibble. -/
theorem C5_deserialize_guards_and_status_mask_witness :
    FpSystemParameters.deserialize [0, 0, 0, 0, 0, 0, 0, 0, 0, 0] = none ∧
    FpSystemParameters.deserialize
      [0, 0, 0, 0, 0, 0, 0, 0, 0, 0, 0, 0, 0, 0, 0, 0] = none ∧
    FpSystemParameters.status
        { status := 0x0D, id := 1, address := 0x01020304, capacity := 2,
          packet := .PACKET_SIZE_128, security := .SECURITY_LVL3,
          baudrate := .BAUDRATE_48000 }
      = 0x0F &&& from_bytes
          (pySlice [0xAB, 0xCD, 0, 1, 0, 2, 0, 3, 1, 2, 3, 4, 0, 2, 0, 5] 0 2) :=
  ⟨C5_deserialize_guards_and_status_mask.1 _ (by decide),
   C5_deserialize_guards_and_status_mask.2.1 _ (by decide) (Or.inl rfl),
   C5_deserialize_guards_and_status_mask.2.2
     [0xAB, 0xCD, 0, 1, 0, 2, 0, 3, 1, 2, 3, 4, 0, 2, 0, 5] _ (by rfl)⟩

/-- C6 (counterexample): the claim says distinct named device errors
carry distinct numeric codes, but `ERROR_PACKET_FAULTY` and
`ERROR_DATABASE_FULL` are distinct names both assigned the code 0xFE,
so the status byte 0xFE does not identify exactly one failure. -/
theorem C6_packet_faulty_database_full_share_code :
    FpError.ERROR_PACKET_FAULTY ≠ FpError.ERROR_DATABASE_FULL ∧
    FpError.code .ERROR_PACKET_FAULTY = FpError.code .ERROR_DATABASE_FULL := by
  decide

/-- C6 (amended): any two distinct `FpError` names with equal codes are
exactly the pair `ERROR_PACKET_FAULTY` / `ERROR_DATABASE_FULL` (both
0xFE); every other status code identifies a unique name. -/
theorem C6_codes_injective_except_shared_FE :
    ∀ a b : FpError, a ≠ b → a.code = b.code →
      ((a = .ERROR_PACKET_FAULTY ∧ b = .ERROR_DATABASE_FULL) ∨
       (a = .ERROR_DATABASE_FULL ∧ b = .ERROR_PACKET_FAULTY)) := by decide

/-- Witness for the amended C6 theorem at the concrete colliding
pair. -/
theorem C6_codes_injective_except_shared_FE_witness :
    FpError.ERROR_PACKET_FAULTY ≠ FpError.ERROR_DATABASE_FULL ∧
    ((FpError.ERROR_PACKET_FAULTY = FpError.ERROR_PACKET_FAULTY ∧
      FpError.ERROR_DATABASE_FULL = FpError.ERROR_DATABASE_FULL) ∨
     (FpError.ERROR_PACKET_FAULTY = FpError.ERROR_DATABASE_FULL ∧
      FpError.ERROR_DATABASE_FULL = FpError.ERROR_PACKET_FAULTY)) :=
  ⟨by decide,
   C6_codes_injective_except_shared_FE _ _ (by decide) (by decide)⟩

/-- C7: for every baudrate code, converting to the integer baud value
(code times 9600) and back recovers the same code. -/
theorem C7_baudrate_roundtrip :
    ∀ b : FpBaudrate, FpBaudrate.from_int (FpBaudrate.to_int b) = .ok b := by
  intro b; cases b <;> rfl

/-- C8: for every packet-size code, converting to the integer size
(32 times 2 to the code) and back recovers the same code. -/
theorem C8_packet_size_roundtrip :
    ∀ p : FpPacketSize, FpPacketSize.from_int (FpPacketSize.to_int p) = .ok p := by
  intro p; cases p <;> rfl

/-- C9: whenever the address field exceeds 0xFFFF, `serialize` fails:
the address is written with `size=2`, and `int.to_bytes` overflows on
any value that does not fit in two bytes. -/
theorem C9_serialize_fails_for_wide_address
    (p : FpSystemParameters) (h : 0xFFFF < p.address) :
    FpSystemParameters.serialize p = none := by
  have ha : to_bytes p.address 2 = none := to_bytes_none_of_ge (by norm_num; omega)
  cases h1 : to_bytes p.status 2 <;>
    cases h2 : to_bytes p.id 2 <;>
      cases h3 : to_bytes p.capacity 2 <;>
        cases h4 : to_bytes p.security.code 2 <;>
          simp [FpSystemParameters.serialize, h1, h2, h3, h4, ha]

/-- Witness for C9 at the default broadcast address 0xFFFFFFFF. -/
theorem C9_serialize_fails_for_wide_address_witness :
    0xFFFF < ADDRESS ∧
    FpSystemParameters.serialize
        { status := 0, id := 0, address := ADDRESS, capacity := 0,
          packet := .PACKET_SIZE_32, security := .SECURITY_LVL1,
          baudrate := .BAUDRATE_9600 } = none :=
  ⟨by decide, C9_serialize_fails_for_wide_address _ (by decide)⟩

/-- C10: for every value from 4 to 31, `FpPacketSize.from_int` fails
with the math-domain error of `log2`: the value is not a member value,
`value >> 5` is 0, and `log2(0)` is undefined, so the documented
unsupported-packet-size error is never reached. -/
theorem C10_from_int_math_domain_error
    (v : Nat) (h1 : 4 ≤ v) (h2 : v ≤ 31) :
    FpPacketSize.from_int v = .error .mathDomainError := by
  interval_cases v <;> rfl

/-- Witness for C10 at the concrete value 20. -/
theorem C10_from_int_math_domain_error_witness :
    (4 ≤ 20 ∧ 20 ≤ 31) ∧
    FpPacketSize.from_int 20 = .error .mathDomainError :=
  ⟨by decide, C10_from_int_math_domain_error 20 (by decide) (by decide)⟩
